import Mathlib

/-!
Shallow embedding of the page-fetch-and-link-validation engine of the
sykell URL analyzer (backend/utils/crawler.go: CrawlURL, checkBrokenLinks,
checkSingleLink).  The HTTP world (net/url parsing and resolution, the
primary GET, the per-link HEAD probes, and context cancellation) is
supplied as an explicit environment; the crawler logic itself is
translated line by line from the Go source.
-/

namespace Crawler

/-- Result of parsing a URL with net/url: the fields the crawler reads
(Scheme and Host) plus the serialized form produced by URL.String(),
which the crawler appends to linksToCheck. -/
structure GoURL where
  scheme : String
  host : String
  serialized : String
deriving DecidableEq

/-- The parsed HTML document as goquery exposes it to the crawler: the
raw doctype declaration (present in the byte stream, though the Go code
never reads it), the text of the first title element, the h1/h2/h3
occurrence counts, the href attributes of all a[href] elements in
document order, and whether any form contains a password-type input. -/
structure HtmlDoc where
  doctype : Option String
  titleText : String
  h1Count : Nat
  h2Count : Nat
  h3Count : Nat
  anchorHrefs : List String
  hasPasswordInput : Bool
deriving DecidableEq

/-- Outcome of the primary GET (client.Do plus body handling): either a
transport-level failure with the Go error string, or a response with its
status code, status line, an optional gzip-reader failure, and the parse
outcome of the body (none when goquery fails to parse the HTML). -/
inductive FetchOutcome where
  | fetchFail (msg : String)
  | resp (status : Nat) (statusText : String) (gzipFail : Option String) (doc : Option HtmlDoc)
deriving DecidableEq

/-- Outcome of a single HEAD probe as checkSingleLink observes it:
request-creation failure, transport failure of client.Do together with
whether ctx.Err() was non-nil at that moment, or a completed response
with status code and status line. -/
inductive ProbeOutcome where
  | reqFail (msg : String)
  | transportFail (msg : String) (ctxCancelled : Bool)
  | resp (status : Nat) (statusText : String)
deriving DecidableEq

/-- One broken-link record, mirroring the Go struct BrokenLinkDetail
(URL, optional StatusCode pointer, Error string). -/
structure BrokenLinkDetail where
  url : String
  statusCode : Option Nat
  error : String
deriving DecidableEq

/-- The aggregate output record, mirroring the Go struct CrawlResult. -/
structure CrawlResult where
  htmlVersion : String
  title : String
  h1 : Nat
  h2 : Nat
  h3 : Nat
  internalLinks : Nat
  externalLinks : Nat
  brokenLinksDetails : List BrokenLinkDetail
  hasLoginForm : Bool
deriving DecidableEq

/-- The environment a CrawlURL invocation runs in: whether building the
primary request fails, the outcome of the primary GET, the net/url
parse and ResolveReference oracles, the per-URL HEAD probe oracle, and
the loop index at which the 90s orchestration context becomes done
during checkBrokenLinks (none when it never fires during probing). -/
structure CrawlEnv where
  reqFail : Option String
  fetch : FetchOutcome
  parseURL : String → Option GoURL
  resolveRef : GoURL → GoURL → GoURL
  probe : String → ProbeOutcome
  cancelAt : Option Nat

/-- Whether the character list pat occurs at the start of s, the helper
for the Go strings.Contains semantics. -/
def strStartsWith : List Char → List Char → Bool
  | _, [] => true
  | [], _ :: _ => false
  | a :: as, b :: bs => a == b && strStartsWith as bs

/-- Whether the character list pat occurs anywhere inside s. -/
def strContainsAux : List Char → List Char → Bool
  | [], pat => pat.isEmpty
  | a :: as, pat => strStartsWith (a :: as) pat || strContainsAux as pat

/-- Go strings.Contains on strings. -/
def goContains (s pat : String) : Bool :=
  strContainsAux s.toList pat.toList

/-- Drop leading whitespace characters from a character list. -/
def dropLeadingSpace : List Char → List Char
  | [] => []
  | c :: cs => if c.isWhitespace then dropLeadingSpace cs else c :: cs

/-- Go strings.TrimSpace, applied to the title text in CrawlURL:
whitespace is removed from both ends. -/
def goTrimSpace (s : String) : String :=
  String.mk ((dropLeadingSpace ((dropLeadingSpace s.data).reverse)).reverse)

/-- Error-message normalization done inside checkSingleLink when
client.Do fails: three recognized substrings are replaced by short
messages, anything else is passed through. -/
def normalizeLinkErr (msg : String) : String :=
  if goContains msg "context deadline exceeded" then "Link check timeout"
  else if goContains msg "no such host" then "Host not found"
  else if goContains msg "connection refused" then "Connection refused"
  else msg

/-- Translation of checkSingleLink: builds the HEAD request, sends it,
and returns a BrokenLinkDetail for request-creation failures, for
transport failures with the context still alive (a cancelled context
makes it return nil), and for responses with status at least 400; a
response below 400 yields none. -/
def checkSingleLink (linkURL : String) (o : ProbeOutcome) : Option BrokenLinkDetail :=
  match o with
  | .reqFail msg =>
      some { url := linkURL, statusCode := none, error := "Request creation failed: " ++ msg }
  | .transportFail msg cancelled =>
      if cancelled then none
      else some { url := linkURL, statusCode := none, error := normalizeLinkErr msg }
  | .resp status statusText =>
      if 400 ≤ status then some { url := linkURL, statusCode := some status, error := statusText }
      else none

/-- Whether the orchestration context is done when the dispatch loop of
checkBrokenLinks reaches index i. -/
def ctxDoneAt (cancelAt : Option Nat) (i : Nat) : Bool :=
  match cancelAt with
  | none => false
  | some k => k ≤ i

/-- Translation of the checkBrokenLinks loop: before dispatching each
link the loop polls ctx.Done() and, if the context is done, returns the
broken links accumulated so far; otherwise the link is probed and a
non-nil detail is appended under the mutex.  The concurrent workers are
collapsed into this sequential accumulation (the spec fixes no ordering
among probe results). -/
def checkBrokenLinksAux (probe : String → ProbeOutcome) (cancelAt : Option Nat) :
    Nat → List String → List BrokenLinkDetail
  | _, [] => []
  | i, l :: ls =>
      if ctxDoneAt cancelAt i then []
      else
        match checkSingleLink l (probe l) with
        | some d => d :: checkBrokenLinksAux probe cancelAt (i + 1) ls
        | none => checkBrokenLinksAux probe cancelAt (i + 1) ls

/-- Translation of checkBrokenLinks. -/
def checkBrokenLinks (probe : String → ProbeOutcome) (cancelAt : Option Nat)
    (links : List String) : List BrokenLinkDetail :=
  checkBrokenLinksAux probe cancelAt 0 links

/-- Classification of a failed client.Do in CrawlURL: the error string
is matched against four substrings in order, with a generic network
error as the fallback, exactly as the Go code does. -/
def classifyFetchErr (target msg : String) : String :=
  if goContains msg "context deadline exceeded" then
    "website timeout: " ++ (target ++ " took too long to respond (>60s)")
  else if goContains msg "no such host" then
    "website not found: " ++ (target ++ " does not exist")
  else if goContains msg "connection refused" then
    "connection refused: " ++ (target ++ " is not accepting connections")
  else if goContains msg "certificate" then
    "SSL certificate error: " ++ (target ++ " has invalid certificate")
  else
    "network error: " ++ msg

/-- The body of the a[href] loop in CrawlURL for one href: skip empty
hrefs, skip hrefs url.Parse rejects, resolve against the base, skip
resolved URLs whose scheme is neither http nor https, and otherwise
report whether the link is internal (resolved Host equals base Host by
Go string equality) together with the serialized absolute URL that is
appended to linksToCheck. -/
def processHref (env : CrawlEnv) (base : GoURL) (href : String) : Option (Bool × String) :=
  if href == "" then none
  else
    match env.parseURL href with
    | none => none
    | some link =>
        let abs := env.resolveRef base link
        if !(abs.scheme == "http") && !(abs.scheme == "https") then none
        else some (abs.host == base.host, abs.serialized)

/-- The whole a[href] loop: returns the internal count, the external
count, and linksToCheck in document order. -/
def processAnchors (env : CrawlEnv) (base : GoURL) : List String → Nat × Nat × List String
  | [] => (0, 0, [])
  | h :: t =>
      match processHref env base h with
      | none => processAnchors env base t
      | some (isInt, u) =>
          let rest := processAnchors env base t
          (if isInt then rest.1 + 1 else rest.1,
           if isInt then rest.2.1 else rest.2.1 + 1,
           u :: rest.2.2)

/-- Translation of CrawlURL: request construction, the primary GET with
error classification, the status-code gate, gzip handling, HTML
parsing, the hardcoded HTML5 version, title extraction, base-URL
parsing, the anchor loop, conditional broken-link checking, and result
assembly. -/
def CrawlURL (env : CrawlEnv) (target : String) : Except String CrawlResult :=
  match env.reqFail with
  | some msg => .error ("failed to create request: " ++ msg)
  | none =>
      match env.fetch with
      | .fetchFail msg => .error (classifyFetchErr target msg)
      | .resp status statusText gzipFail docOpt =>
          if 400 ≤ status then
            .error ("website error: " ++ (target ++ " returned " ++ toString status ++ " " ++ statusText))
          else
            match gzipFail with
            | some msg => .error ("failed to create gzip reader: " ++ msg)
            | none =>
                match docOpt with
                | none => .error ("parsing error: failed to parse HTML from " ++ target)
                | some doc =>
                    let htmlVer := "HTML5"
                    let title := goTrimSpace doc.titleText
                    match env.parseURL target with
                    | none => .error "failed to parse base URL"
                    | some base =>
                        let res := processAnchors env base doc.anchorHrefs
                        let brokenLinks :=
                          if 0 < res.2.2.length then checkBrokenLinks env.probe env.cancelAt res.2.2
                          else []
                        .ok { htmlVersion := htmlVer
                              title := title
                              h1 := doc.h1Count
                              h2 := doc.h2Count
                              h3 := doc.h3Count
                              internalLinks := res.1
                              externalLinks := res.2.1
                              brokenLinksDetails := brokenLinks
                              hasLoginForm := doc.hasPasswordInput }

/-- Claim wording: whether the orchestration context was already
cancelled when the HEAD outcome was observed. -/
def probeCtxCancelled : ProbeOutcome → Bool
  | .transportFail _ c => c
  | _ => false

/-- Claim wording for a broken probe: the HEAD request errored
(request construction or transport), or it completed with a status code
of at least 400. -/
def headBrokenSpec : ProbeOutcome → Bool
  | .reqFail _ => true
  | .transportFail _ _ => true
  | .resp status _ => decide (400 ≤ status)

/-- Claim wording for an href that counts as a link: non-empty, accepted
by url.Parse, and resolving to an http or https URL. -/
def countedBySpec (env : CrawlEnv) (base : GoURL) (href : String) : Bool :=
  if href == "" then false
  else
    match env.parseURL href with
    | none => false
    | some link =>
        (env.resolveRef base link).scheme == "http" ||
          (env.resolveRef base link).scheme == "https"

/-- Lower-casing of a host string, character by character. -/
def hostLower (s : String) : String :=
  String.mk (s.data.map Char.toLower)

/-- Claim wording for the internal test of C6: hosts compared
case-insensitively. -/
def hostsMatchSpec (a b : String) : Bool :=
  hostLower a == hostLower b

/-- Concrete page for C1: a document carrying a legacy HTML 4.01 Strict
doctype declaration and no anchors. -/
def docC1 : HtmlDoc :=
  { doctype := some "HTML PUBLIC -//W3C//DTD HTML 4.01//EN http://www.w3.org/TR/html4/strict.dtd"
    titleText := "Legacy Page"
    h1Count := 1
    h2Count := 0
    h3Count := 0
    anchorHrefs := []
    hasPasswordInput := false }

/-- Base URL for the C1 page. -/
def baseC1 : GoURL :=
  { scheme := "http", host := "legacy.test", serialized := "http://legacy.test" }

/-- Environment in which the C1 page is fetched successfully. -/
def envC1 : CrawlEnv :=
  { reqFail := none
    fetch := .resp 200 "200 OK" none (some docC1)
    parseURL := fun s => if s == "http://legacy.test" then some baseC1 else none
    resolveRef := fun _ link => link
    probe := fun _ => .resp 200 "200 OK"
    cancelAt := none }

/-- The result the crawler produces for the C1 page. -/
def resC1 : CrawlResult :=
  { htmlVersion := "HTML5"
    title := "Legacy Page"
    h1 := 1
    h2 := 0
    h3 := 0
    internalLinks := 0
    externalLinks := 0
    brokenLinksDetails := []
    hasLoginForm := false }

/-- Twenty probe targets for the Scenario D instance of C2. -/
def linksD : List String :=
  ["http://test.example/link0", "http://test.example/link1", "http://test.example/link2",
   "http://test.example/link3", "http://test.example/link4", "http://test.example/link5",
   "http://test.example/link6", "http://test.example/link7", "http://test.example/link8",
   "http://test.example/link9", "http://test.example/link10", "http://test.example/link11",
   "http://test.example/link12", "http://test.example/link13", "http://test.example/link14",
   "http://test.example/link15", "http://test.example/link16", "http://test.example/link17",
   "http://test.example/link18", "http://test.example/link19"]

/-- Probe oracle for Scenario D: link7 answers 404, everything else 200. -/
def probeD : String → ProbeOutcome :=
  fun u => if u == "http://test.example/link7" then .resp 404 "404 Not Found"
           else .resp 200 "200 OK"

/-- The single broken-link record Scenario D must produce. -/
def detailD : BrokenLinkDetail :=
  { url := "http://test.example/link7", statusCode := some 404, error := "404 Not Found" }

/-- Concrete page for C3: two same-host anchors. -/
def docC3 : HtmlDoc :=
  { doctype := some "html"
    titleText := "Probe Page"
    h1Count := 0
    h2Count := 0
    h3Count := 0
    anchorHrefs := ["/a", "/b"]
    hasPasswordInput := false }

/-- Base URL for the C3 page. -/
def baseC3 : GoURL :=
  { scheme := "http", host := "s3.test", serialized := "http://s3.test" }

/-- Environment for C3: the first link is broken with 404 and the
orchestration context becomes done after the first probe is dispatched,
so the second probe is abandoned. -/
def envC3 : CrawlEnv :=
  { reqFail := none
    fetch := .resp 200 "200 OK" none (some docC3)
    parseURL := fun s =>
      if s == "http://s3.test" then some baseC3
      else if s == "/a" then
        some { scheme := "http", host := "s3.test", serialized := "http://s3.test/a" }
      else if s == "/b" then
        some { scheme := "http", host := "s3.test", serialized := "http://s3.test/b" }
      else none
    resolveRef := fun _ link => link
    probe := fun u => if u == "http://s3.test/a" then .resp 404 "404 Not Found"
                      else .resp 200 "200 OK"
    cancelAt := some 1 }

/-- Environment for C4: the primary GET fails with a connection-refused
transport error. -/
def envC4 : CrawlEnv :=
  { reqFail := none
    fetch := .fetchFail "dial tcp 127.0.0.1:80: connect: connection refused"
    parseURL := fun _ => none
    resolveRef := fun _ link => link
    probe := fun _ => .resp 200 "200 OK"
    cancelAt := none }

/-- Base URL for the C6 counterexample. -/
def baseC6 : GoURL :=
  { scheme := "http", host := "example.com", serialized := "http://example.com" }

/-- A parsed link whose host differs from the base host only in case.
Go net/url lowercases the scheme during parsing but preserves the case
of the host. -/
def linkC6up : GoURL :=
  { scheme := "http", host := "EXAMPLE.COM", serialized := "http://EXAMPLE.COM/x" }

/-- A parsed link whose host equals the base host exactly. -/
def linkC6low : GoURL :=
  { scheme := "http", host := "example.com", serialized := "http://example.com/y" }

/-- Environment for the C6 counterexample. -/
def envC6 : CrawlEnv :=
  { reqFail := none
    fetch := .resp 200 "200 OK" none none
    parseURL := fun s =>
      if s == "HTTP://EXAMPLE.COM/x" then some linkC6up
      else if s == "http://example.com/y" then some linkC6low
      else none
    resolveRef := fun _ link => link
    probe := fun _ => .resp 200 "200 OK"
    cancelAt := none }

/-- Concrete page for C7: no anchors at all. -/
def docC7 : HtmlDoc :=
  { doctype := some "html"
    titleText := "Empty Page"
    h1Count := 2
    h2Count := 1
    h3Count := 0
    anchorHrefs := []
    hasPasswordInput := true }

/-- Base URL for the C7 page. -/
def baseC7 : GoURL :=
  { scheme := "http", host := "s7.test", serialized := "http://s7.test" }

/-- Environment for C7. -/
def envC7 : CrawlEnv :=
  { reqFail := none
    fetch := .resp 200 "200 OK" none (some docC7)
    parseURL := fun s => if s == "http://s7.test" then some baseC7 else none
    resolveRef := fun _ link => link
    probe := fun _ => .resp 200 "200 OK"
    cancelAt := none }

/-- The broken-link record for the C9 witness. -/
def detailC9 : BrokenLinkDetail :=
  { url := "http://w9.test/x", statusCode := some 404, error := "404 Not Found" }

/-- Environment for the C10 witness: like envC3 but with the context
never firing, so both links are probed and one broken entry results. -/
def envC10 : CrawlEnv :=
  { reqFail := none
    fetch := .resp 200 "200 OK" none (some docC3)
    parseURL := fun s =>
      if s == "http://s3.test" then some baseC3
      else if s == "/a" then
        some { scheme := "http", host := "s3.test", serialized := "http://s3.test/a" }
      else if s == "/b" then
        some { scheme := "http", host := "s3.test", serialized := "http://s3.test/b" }
      else none
    resolveRef := fun _ link => link
    probe := fun u => if u == "http://s3.test/a" then .resp 404 "404 Not Found"
                      else .resp 200 "200 OK"
    cancelAt := none }

/-- The result the crawler produces in envC10. -/
def resC10 : CrawlResult :=
  { htmlVersion := "HTML5"
    title := "Probe Page"
    h1 := 0
    h2 := 0
    h3 := 0
    internalLinks := 2
    externalLinks := 0
    brokenLinksDetails := [{ url := "http://s3.test/a", statusCode := some 404, error := "404 Not Found" }]
    hasLoginForm := false }

/-- Two strings built by appending anything to heads that already differ
within their first nine characters are distinct. -/
theorem string_ne_of_head9 (p q : String) (hp : 9 ≤ p.data.length)
    (hq : 9 ≤ q.data.length) (hne : p.data.take 9 ≠ q.data.take 9)
    (m n : String) : p ++ m ≠ q ++ n := by
  obtain ⟨pl⟩ := p
  obtain ⟨ql⟩ := q
  obtain ⟨ml⟩ := m
  obtain ⟨nl⟩ := n
  intro he
  apply hne
  have hd : pl ++ ml = ql ++ nl := congrArg String.data he
  calc (String.mk pl).data.take 9
      = (pl ++ ml).take 9 := (List.take_append_of_le_length hp).symm
    _ = (ql ++ nl).take 9 := by rw [hd]
    _ = (String.mk ql).data.take 9 := List.take_append_of_le_length hq

/-- Appending anything to a non-empty string never yields the empty
string. -/
theorem string_append_ne_empty (p m : String) (hp : p.data ≠ []) : p ++ m ≠ "" := by
  obtain ⟨pl⟩ := p
  obtain ⟨ml⟩ := m
  intro he
  have hd : pl ++ ml = [] := congrArg String.data he
  rw [List.append_eq_nil] at hd
  exact hp hd.1

/-- The loop body keeps an href exactly when the claim-worded predicate
countedBySpec accepts it. -/
theorem processHref_isSome (env : CrawlEnv) (base : GoURL) (href : String) :
    (processHref env base href).isSome = countedBySpec env base href := by
  unfold processHref countedBySpec
  cases he : (href == "") with
  | true => simp
  | false =>
      simp only [Bool.false_eq_true, if_false]
      cases hp : env.parseURL href with
      | none => simp
      | some link =>
          simp only []
          cases h1 : ((env.resolveRef base link).scheme == "http") with
          | true => simp [h1]
          | false =>
              cases h2 : ((env.resolveRef base link).scheme == "https") with
              | true => simp [h1, h2]
              | false => simp [h1, h2]

/-- linksToCheck always holds exactly one URL per counted link. -/
theorem processAnchors_len (env : CrawlEnv) (base : GoURL) (hrefs : List String) :
    (processAnchors env base hrefs).2.2.length
      = (processAnchors env base hrefs).1 + (processAnchors env base hrefs).2.1 := by
  induction hrefs with
  | nil => simp [processAnchors]
  | cons h t ih =>
      cases hph : processHref env base h with
      | none => simp [processAnchors, hph, ih]
      | some pr =>
          obtain ⟨isInt, u⟩ := pr
          cases isInt with
          | true => simp [processAnchors, hph, ih]; omega
          | false => simp [processAnchors, hph, ih]; omega

/-- The prober returns at most one record per dispatched link. -/
theorem checkBrokenLinksAux_len_le (probe : String → ProbeOutcome)
    (cancelAt : Option Nat) (i : Nat) (ls : List String) :
    (checkBrokenLinksAux probe cancelAt i ls).length ≤ ls.length := by
  induction ls generalizing i with
  | nil => simp [checkBrokenLinksAux]
  | cons l t ih =>
      unfold checkBrokenLinksAux
      cases hd : ctxDoneAt cancelAt i with
      | true => simp
      | false =>
          simp only [Bool.false_eq_true, if_false]
          cases checkSingleLink l (probe l) with
          | none => exact Nat.le_succ_of_le (ih (i + 1))
          | some d => simpa using ih (i + 1)

/-- Assembly lemma: when request construction, the primary GET, gzip
handling, HTML parsing and base-URL parsing all succeed, CrawlURL
returns the assembled record. -/
theorem crawlURL_ok_eq (env : CrawlEnv) (target : String) (st : Nat) (stx : String)
    (doc : HtmlDoc) (base : GoURL)
    (h1 : env.reqFail = none) (h2 : env.fetch = .resp st stx none (some doc))
    (h3 : ¬ 400 ≤ st) (h4 : env.parseURL target = some base) :
    CrawlURL env target = .ok
      { htmlVersion := "HTML5"
        title := goTrimSpace doc.titleText
        h1 := doc.h1Count
        h2 := doc.h2Count
        h3 := doc.h3Count
        internalLinks := (processAnchors env base doc.anchorHrefs).1
        externalLinks := (processAnchors env base doc.anchorHrefs).2.1
        brokenLinksDetails :=
          if 0 < (processAnchors env base doc.anchorHrefs).2.2.length then
            checkBrokenLinks env.probe env.cancelAt (processAnchors env base doc.anchorHrefs).2.2
          else []
        hasLoginForm := doc.hasPasswordInput } := by
  simp only [CrawlURL, h1, h2, h4, if_neg h3]

/-- Inversion lemma: a successful CrawlURL run can only arise from the
fully successful path, and the result is the assembled record. -/
theorem crawlURL_ok_inv (env : CrawlEnv) (target : String) (r : CrawlResult)
    (h : CrawlURL env target = .ok r) :
    ∃ st stx doc base,
      env.reqFail = none ∧ env.fetch = .resp st stx none (some doc) ∧
      ¬ 400 ≤ st ∧ env.parseURL target = some base ∧
      r = { htmlVersion := "HTML5"
            title := goTrimSpace doc.titleText
            h1 := doc.h1Count
            h2 := doc.h2Count
            h3 := doc.h3Count
            internalLinks := (processAnchors env base doc.anchorHrefs).1
            externalLinks := (processAnchors env base doc.anchorHrefs).2.1
            brokenLinksDetails :=
              if 0 < (processAnchors env base doc.anchorHrefs).2.2.length then
                checkBrokenLinks env.probe env.cancelAt (processAnchors env base doc.anchorHrefs).2.2
              else []
            hasLoginForm := doc.hasPasswordInput } := by
  unfold CrawlURL at h
  cases h1 : env.reqFail with
  | some msg => rw [h1] at h; exact Except.noConfusion h
  | none =>
  rw [h1] at h
  cases h2 : env.fetch with
  | fetchFail msg => rw [h2] at h; exact Except.noConfusion h
  | resp st stx gz docOpt =>
  rw [h2] at h
  dsimp only at h
  by_cases h3 : 400 ≤ st
  · rw [if_pos h3] at h; exact Except.noConfusion h
  · rw [if_neg h3] at h
    cases gz with
    | some m => exact Except.noConfusion h
    | none =>
    cases docOpt with
    | none => exact Except.noConfusion h
    | some doc =>
    dsimp only at h
    cases h4 : env.parseURL target with
    | none => rw [h4] at h; exact Except.noConfusion h
    | some base =>
    rw [h4] at h
    exact ⟨st, stx, doc, base, rfl, rfl, h3, rfl, (Except.ok.inj h).symm⟩

/-- C1: in every successful CrawlURL run the htmlVersion field is the
constant "HTML5", whatever doctype the fetched document carries; in
particular a page with a legacy HTML 4.01 doctype is reported as
"HTML5" and a page with no doctype is not reported as a distinct value
such as "Unknown".  This refutes doctype-based classification: the
crawler never reads the doctype. -/
theorem C1_htmlVersion_hardcoded (env : CrawlEnv) (target : String) (r : CrawlResult)
    (h : CrawlURL env target = .ok r) : r.htmlVersion = "HTML5" := by
  obtain ⟨st, stx, doc, base, _, _, _, _, hr⟩ := crawlURL_ok_inv env target r h
  rw [hr]

/-- Witness for C1: the concrete page carrying a legacy HTML 4.01
doctype is still reported as HTML5. -/
theorem C1_htmlVersion_hardcoded_witness :
    CrawlURL envC1 "http://legacy.test" = .ok resC1 ∧
    docC1.doctype = some "HTML PUBLIC -//W3C//DTD HTML 4.01//EN http://www.w3.org/TR/html4/strict.dtd" ∧
    resC1.htmlVersion = "HTML5" :=
  ⟨rfl, rfl, C1_htmlVersion_hardcoded envC1 "http://legacy.test" resC1 rfl⟩

/-- C2: while the orchestration context is alive, a probed link yields
a broken-link record exactly when the HEAD request errored or completed
with status at least 400; and in the Scenario D instance with twenty
links of which only link7 answers 404, the prober returns exactly the
one record with status code 404. -/
theorem C2_broken_iff (linkURL : String) (o : ProbeOutcome)
    (hc : probeCtxCancelled o = false) :
    (checkSingleLink linkURL o).isSome = headBrokenSpec o ∧
    checkBrokenLinks probeD none linksD = [detailD] := by
  refine ⟨?_, by decide⟩
  cases o with
  | reqFail msg => simp [checkSingleLink, headBrokenSpec]
  | transportFail msg c =>
      simp only [probeCtxCancelled] at hc
      subst hc
      simp [checkSingleLink, headBrokenSpec]
  | resp st stx =>
      by_cases h : 400 ≤ st
      · simp [checkSingleLink, headBrokenSpec, h]
      · simp [checkSingleLink, headBrokenSpec, h]

/-- Witness for C2 at a completed 404 response. -/
theorem C2_broken_iff_witness :
    probeCtxCancelled (.resp 404 "404 Not Found") = false ∧
    ((checkSingleLink "http://w2.test/x" (.resp 404 "404 Not Found")).isSome
        = headBrokenSpec (.resp 404 "404 Not Found") ∧
      checkBrokenLinks probeD none linksD = [detailD]) :=
  ⟨rfl, C2_broken_iff "http://w2.test/x" (.resp 404 "404 Not Found") rfl⟩

/-- C3: once the primary fetch and parse have succeeded, CrawlURL
returns a successful CrawlResult whatever the probe outcomes and
whatever point of the probing loop the overall deadline fires at; it is
never a timeout error, its broken-link list is exactly what the prober
accumulated before the context became done, and no error value is ever
returned. -/
theorem C3_probing_never_aborts (env : CrawlEnv) (target : String) (st : Nat)
    (stx : String) (doc : HtmlDoc) (base : GoURL)
    (h1 : env.reqFail = none) (h2 : env.fetch = .resp st stx none (some doc))
    (h3 : ¬ 400 ≤ st) (h4 : env.parseURL target = some base) :
    ∃ r, CrawlURL env target = .ok r ∧
      r.brokenLinksDetails =
        (if 0 < (processAnchors env base doc.anchorHrefs).2.2.length then
          checkBrokenLinks env.probe env.cancelAt (processAnchors env base doc.anchorHrefs).2.2
        else []) ∧
      ∀ e, CrawlURL env target ≠ .error e := by
  have hok := crawlURL_ok_eq env target st stx doc base h1 h2 h3 h4
  exact ⟨_, hok, rfl, fun e he => Except.noConfusion (hok.symm.trans he)⟩

/-- Witness for C3: in envC3 the deadline fires after the first probe,
the call still succeeds, and the single broken link found before the
deadline is returned. -/
theorem C3_probing_never_aborts_witness :
    ∃ r, CrawlURL envC3 "http://s3.test" = .ok r ∧
      r.brokenLinksDetails =
        (if 0 < (processAnchors envC3 baseC3 docC3.anchorHrefs).2.2.length then
          checkBrokenLinks envC3.probe envC3.cancelAt (processAnchors envC3 baseC3 docC3.anchorHrefs).2.2
        else []) ∧
      ∀ e, CrawlURL envC3 "http://s3.test" ≠ .error e :=
  C3_probing_never_aborts envC3 "http://s3.test" 200 "200 OK" docC3 baseC3 rfl rfl
    (by decide) rfl

/-- C4: when the primary fetch fails at transport level CrawlURL
returns the classified error and no result; a message containing the
connection-refused marker (and none of the earlier-matched markers)
yields the connection-refused classification; an HTTP status of at
least 400 likewise aborts with the website-error message; and the six
classification shapes are pairwise distinct whatever the target and
detail strings are. -/
theorem C4_fetch_failure_classified (env : CrawlEnv) (target : String)
    (h0 : env.reqFail = none) :
    (∀ msg, env.fetch = .fetchFail msg →
        CrawlURL env target = .error (classifyFetchErr target msg)) ∧
    (∀ msg, goContains msg "context deadline exceeded" = false →
        goContains msg "no such host" = false →
        goContains msg "connection refused" = true →
        classifyFetchErr target msg
          = "connection refused: " ++ (target ++ " is not accepting connections")) ∧
    (∀ st stx gz d, env.fetch = .resp st stx gz d → 400 ≤ st →
        CrawlURL env target
          = .error ("website error: " ++ (target ++ " returned " ++ toString st ++ " " ++ stx))) ∧
    (∀ m n : String,
        "website timeout: " ++ m ≠ "website not found: " ++ n ∧
        "website timeout: " ++ m ≠ "connection refused: " ++ n ∧
        "website timeout: " ++ m ≠ "SSL certificate error: " ++ n ∧
        "website timeout: " ++ m ≠ "network error: " ++ n ∧
        "website timeout: " ++ m ≠ "website error: " ++ n ∧
        "website not found: " ++ m ≠ "connection refused: " ++ n ∧
        "website not found: " ++ m ≠ "SSL certificate error: " ++ n ∧
        "website not found: " ++ m ≠ "network error: " ++ n ∧
        "website not found: " ++ m ≠ "website error: " ++ n ∧
        "connection refused: " ++ m ≠ "SSL certificate error: " ++ n ∧
        "connection refused: " ++ m ≠ "network error: " ++ n ∧
        "connection refused: " ++ m ≠ "website error: " ++ n ∧
        "SSL certificate error: " ++ m ≠ "network error: " ++ n ∧
        "SSL certificate error: " ++ m ≠ "website error: " ++ n ∧
        "network error: " ++ m ≠ "website error: " ++ n) := by
  refine ⟨?_, ?_, ?_, ?_⟩
  · intro msg hf
    simp only [CrawlURL, h0, hf]
  · intro msg hc1 hc2 hc3
    simp [classifyFetchErr, hc1, hc2, hc3]
  · intro st stx gz d hf hge
    simp only [CrawlURL, h0, hf, if_pos hge]
  · intro m n
    refine ⟨?_, ?_, ?_, ?_, ?_, ?_, ?_, ?_, ?_, ?_, ?_, ?_, ?_, ?_, ?_⟩ <;>
      (apply string_ne_of_head9 <;> decide)

/-- Witness for C4: a host refusing connections produces the
connection-refused classification and no result. -/
theorem C4_fetch_failure_classified_witness :
    CrawlURL envC4 "http://refused.test"
      = .error (classifyFetchErr "http://refused.test" "dial tcp 127.0.0.1:80: connect: connection refused") ∧
    classifyFetchErr "http://refused.test" "dial tcp 127.0.0.1:80: connect: connection refused"
      = "connection refused: " ++ ("http://refused.test" ++ " is not accepting connections") :=
  ⟨(C4_fetch_failure_classified envC4 "http://refused.test" rfl).1 _ rfl,
   (C4_fetch_failure_classified envC4 "http://refused.test" rfl).2.1 _
     (by decide) (by decide) (by decide)⟩

/-- C5: the anchor loop counts exactly the hrefs that are non-empty,
parseable and resolve to an http or https URL; everything else is
discarded, and the internal count plus the external count equals this
number, which is also the number of URLs collected for probing. -/
theorem C5_link_counts (env : CrawlEnv) (base : GoURL) (hrefs : List String) :
    (processAnchors env base hrefs).1 + (processAnchors env base hrefs).2.1
      = (hrefs.filter (fun h => countedBySpec env base h)).length ∧
    (processAnchors env base hrefs).2.2.length
      = (processAnchors env base hrefs).1 + (processAnchors env base hrefs).2.1 := by
  refine ⟨?_, processAnchors_len env base hrefs⟩
  induction hrefs with
  | nil => simp [processAnchors]
  | cons h t ih =>
      have hcs : countedBySpec env base h = (processHref env base h).isSome :=
        (processHref_isSome env base h).symm
      cases hph : processHref env base h with
      | none =>
          rw [hph] at hcs
          simp [processAnchors, hph, List.filter_cons, hcs, ih]
      | some pr =>
          rw [hph] at hcs
          obtain ⟨isInt, u⟩ := pr
          cases isInt with
          | true =>
              simp [processAnchors, hph, List.filter_cons, hcs, ← ih]
              omega
          | false =>
              simp [processAnchors, hph, List.filter_cons, hcs, ← ih]
              omega

/-- Counterexample for C6: a link whose resolved host equals the base
host case-insensitively, but not as an exact string, is classified
External (the Bool in the processHref output is false), refuting the
case-insensitive reading of the claim. -/
theorem C6_counterexample :
    hostsMatchSpec linkC6up.host baseC6.host = true ∧
    envC6.parseURL "HTTP://EXAMPLE.COM/x" = some linkC6up ∧
    envC6.resolveRef baseC6 linkC6up = linkC6up ∧
    processHref envC6 baseC6 "HTTP://EXAMPLE.COM/x" = some (false, "http://EXAMPLE.COM/x") :=
  ⟨by decide, by decide, by decide, by decide⟩

/-- C6 amended: a classified link is tagged Internal exactly when the
resolved host string equals the base host string by Go string equality,
that is case-sensitively and with any port part included. -/
theorem C6_internal_iff_exact_host (env : CrawlEnv) (base : GoURL) (href : String)
    (b : Bool) (u : String) (link : GoURL)
    (h : processHref env base href = some (b, u))
    (hp : env.parseURL href = some link) :
    b = true ↔ (env.resolveRef base link).host = base.host := by
  unfold processHref at h
  by_cases he : (href == "") = true
  · rw [if_pos he] at h
    exact Option.noConfusion h
  · rw [if_neg he, hp] at h
    dsimp only at h
    by_cases h1 : (!((env.resolveRef base link).scheme == "http") &&
        !((env.resolveRef base link).scheme == "https")) = true
    · rw [if_pos h1] at h
      exact Option.noConfusion h
    · rw [if_neg h1] at h
      obtain ⟨hb, _⟩ := Prod.mk.inj (Option.some.inj h)
      rw [← hb]
      exact beq_iff_eq

/-- Witness for C6 amended: an exactly matching host is tagged
Internal. -/
theorem C6_internal_iff_exact_host_witness :
    true = true ↔ (envC6.resolveRef baseC6 linkC6low).host = baseC6.host :=
  C6_internal_iff_exact_host envC6 baseC6 "http://example.com/y" true
    "http://example.com/y" linkC6low (by decide) (by decide)

/-- C7: a successfully fetched and parsed page with zero anchors yields
zero internal links, zero external links and an empty broken-links
list, and the outcome does not depend on the probe oracle or the
cancellation point at all, so no probing network call is issued. -/
theorem C7_zero_anchors (env : CrawlEnv) (target : String) (st : Nat) (stx : String)
    (doc : HtmlDoc) (base : GoURL)
    (h1 : env.reqFail = none) (h2 : env.fetch = .resp st stx none (some doc))
    (h3 : ¬ 400 ≤ st) (h4 : env.parseURL target = some base)
    (h5 : doc.anchorHrefs = []) :
    ∃ r, CrawlURL env target = .ok r ∧ r.internalLinks = 0 ∧ r.externalLinks = 0 ∧
      r.brokenLinksDetails = [] ∧
      ∀ probe2 cancel2,
        CrawlURL { env with probe := probe2, cancelAt := cancel2 } target
          = CrawlURL env target := by
  have mk : ∀ e : CrawlEnv, e.reqFail = none → e.fetch = .resp st stx none (some doc) →
      e.parseURL target = some base →
      CrawlURL e target = .ok
        { htmlVersion := "HTML5", title := goTrimSpace doc.titleText,
          h1 := doc.h1Count, h2 := doc.h2Count, h3 := doc.h3Count,
          internalLinks := 0, externalLinks := 0, brokenLinksDetails := [],
          hasLoginForm := doc.hasPasswordInput } := by
    intro e e1 e2 e4
    have he := crawlURL_ok_eq e target st stx doc base e1 e2 h3 e4
    rw [h5] at he
    exact he.trans rfl
  refine ⟨_, mk env h1 h2 h4, rfl, rfl, rfl, fun probe2 cancel2 => ?_⟩
  rw [mk { env with probe := probe2, cancelAt := cancel2 } h1 h2 h4, mk env h1 h2 h4]

/-- Witness for C7 on the concrete anchor-free page. -/
theorem C7_zero_anchors_witness :
    ∃ r, CrawlURL envC7 "http://s7.test" = .ok r ∧ r.internalLinks = 0 ∧
      r.externalLinks = 0 ∧ r.brokenLinksDetails = [] ∧
      ∀ probe2 cancel2,
        CrawlURL { envC7 with probe := probe2, cancelAt := cancel2 } "http://s7.test"
          = CrawlURL envC7 "http://s7.test" :=
  C7_zero_anchors envC7 "http://s7.test" 200 "200 OK" docC7 baseC7 rfl rfl
    (by decide) rfl rfl

/-- C9: every record the prober emits satisfies the invariant: a
present status code is at least 400 and the Error field is the status
line of that response; an absent status code comes with a non-empty
error message, granted that transport errors carry non-empty messages
as Go error values do. -/
theorem C9_detail_invariant (linkURL : String) (o : ProbeOutcome) (d : BrokenLinkDetail)
    (h : checkSingleLink linkURL o = some d)
    (hm : ∀ msg c, o = .transportFail msg c → msg ≠ "") :
    (∀ st, d.statusCode = some st → 400 ≤ st ∧ ∃ stx, o = .resp st stx ∧ d.error = stx) ∧
    (d.statusCode = none → d.error ≠ "") := by
  cases o with
  | reqFail msg =>
      simp only [checkSingleLink] at h
      obtain rfl := Option.some.inj h
      refine ⟨fun st hst => absurd hst (by simp), fun _ => ?_⟩
      exact string_append_ne_empty "Request creation failed: " msg (by decide)
  | transportFail msg c =>
      cases c with
      | true => simp [checkSingleLink] at h
      | false =>
          simp only [checkSingleLink, Bool.false_eq_true, if_false] at h
          obtain rfl := Option.some.inj h
          refine ⟨fun st hst => absurd hst (by simp), fun _ => ?_⟩
          have hne : msg ≠ "" := hm msg false rfl
          show normalizeLinkErr msg ≠ ""
          unfold normalizeLinkErr
          split_ifs <;> first | decide | exact hne
  | resp st stx =>
      simp only [checkSingleLink] at h
      by_cases hge : 400 ≤ st
      · rw [if_pos hge] at h
        obtain rfl := Option.some.inj h
        refine ⟨fun st0 hst0 => ?_, fun hnone => absurd hnone (by simp)⟩
        obtain rfl : st = st0 := Option.some.inj hst0
        exact ⟨hge, stx, rfl, rfl⟩
      · rw [if_neg hge] at h
        exact Option.noConfusion h

/-- Witness for C9 at a completed 404 response. -/
theorem C9_detail_invariant_witness :
    (∀ st, detailC9.statusCode = some st → 400 ≤ st ∧
      ∃ stx, ProbeOutcome.resp 404 "404 Not Found" = .resp st stx ∧ detailC9.error = stx) ∧
    (detailC9.statusCode = none → detailC9.error ≠ "") :=
  C9_detail_invariant "http://w9.test/x" (.resp 404 "404 Not Found") detailC9 rfl
    (fun _ _ hh => ProbeOutcome.noConfusion hh)

/-- C10: in every successful run the broken-links list is no longer
than the total number of classified links, because exactly one probe
URL is collected per classified link and each probe contributes at most
one record. -/
theorem C10_broken_bounded (env : CrawlEnv) (target : String) (r : CrawlResult)
    (h : CrawlURL env target = .ok r) :
    r.brokenLinksDetails.length ≤ r.internalLinks + r.externalLinks := by
  obtain ⟨st, stx, doc, base, _, _, _, _, hr⟩ := crawlURL_ok_inv env target r h
  subst hr
  dsimp only
  by_cases hl : 0 < (processAnchors env base doc.anchorHrefs).2.2.length
  · rw [if_pos hl]
    calc (checkBrokenLinks env.probe env.cancelAt (processAnchors env base doc.anchorHrefs).2.2).length
        ≤ (processAnchors env base doc.anchorHrefs).2.2.length :=
          checkBrokenLinksAux_len_le env.probe env.cancelAt 0 _
      _ = _ := processAnchors_len env base doc.anchorHrefs
  · rw [if_neg hl]
    simp

/-- Witness for C10 on a run with two links of which one is broken. -/
theorem C10_broken_bounded_witness :
    CrawlURL envC10 "http://s3.test" = .ok resC10 ∧
    resC10.brokenLinksDetails.length ≤ resC10.internalLinks + resC10.externalLinks :=
  ⟨rfl, C10_broken_bounded envC10 "http://s3.test" resC10 rfl⟩

end Crawler
